import Mathlib

/-!
Verification development for the FamilyLifeHub external account linking and
sync state machine.  The definitions below are shallow embeddings of the
frontend code (`src/frontend/...` and the unnamed client components): React
handlers become pure state-transition functions on an explicit component-state
record, the remote API is an explicit outcome parameter, and the list of sync
requests a handler issues is returned alongside the new state.  Parts of the
system whose code is not in the repository snapshot (the FastAPI backend's
reconciliation engine and OAuth exchange) are modelled from the specification
and marked as such in their doc comments.
-/

set_option maxRecDepth 100000

namespace FamilyLifeHub

/-- Substring test, the embedding of JavaScript `String.prototype.includes`. -/
def strContains (s pat : String) : Bool :=
  decide (pat.data <:+: s.data)

/-- Outcome of an awaited API call as observed by a `try`/`catch` block:
either the parsed response data, or a thrown error carrying an optional HTTP
status and a message (`err?.status`, `err?.message`; an absent message is
modelled as the empty string at the use sites). -/
inductive ApiOutcome (α : Type) where
  | ok (data : α)
  | err (status : Option Nat) (message : String)
deriving Repr, DecidableEq

/-- `GarminConnection` from src/frontend/types/api.ts (lines 156-163). -/
structure GarminConnection where
  connected : Bool
  garmin_display_name : Option String
  garmin_user_id : Option String
  created_at : Option String
  last_sync_at : Option String
  sync_status : String
deriving Repr, DecidableEq

/-- `GarminLoginRequest` from src/frontend/types/api.ts (lines 165-170). -/
structure GarminLoginRequest where
  username : String
  password : String
  is_cn : Bool
  mfa_token : Option String
deriving Repr, DecidableEq

/-- `GarminSyncResponse` from src/frontend/types/api.ts (lines 177-184). -/
structure GarminSyncResponse where
  success : Bool
  days_synced : Nat
  metrics_created : Nat
  metrics_updated : Nat
  errors : List String
  last_sync_at : Option String
deriving Repr, DecidableEq

/-- Request body built by `connectGarmin` in src/frontend/lib/api.ts
(lines 288-302): `mfa_token` is attached only when the argument is truthy
(present and non-empty). -/
def connectGarminBody (username password : String) (mfaToken : Option String)
    (isCn : Bool) : GarminLoginRequest :=
  { username := username
    password := password
    is_cn := isCn
    mfa_token :=
      match mfaToken with
      | some t => if t = "" then none else some t
      | none => none }

/-- The two steps of the Garmin login form (`loginStep` state). -/
inductive LoginStep where
  | credentials
  | mfa
deriving Repr, DecidableEq

/-- Component state of `GarminConnectionCard` (transient spinner flags
`loading`/`syncing`/`connecting`, which every handler restores in its
`finally` block, are omitted). -/
structure GarminCardState where
  connection : Option GarminConnection
  error : Option String
  syncResult : Option String
  showLoginForm : Bool
  loginStep : LoginStep
  username : String
  password : String
  mfaToken : String
  isCn : Bool
deriving Repr, DecidableEq

namespace Msgs

def credentialsGuard : String := "Please enter your Garmin username and password"

def mfaGuard : String := "Please enter the verification code from your email"

def connectFailDefault : String := "Failed to connect Garmin account"

def connectFailGeneric : String := "Failed to connect: "

def invalidCredCn : String :=
  "Invalid credentials for Garmin China. Please verify your username and password by logging into https://connect.garmin.cn."

def invalidCredEn : String :=
  "Invalid Garmin credentials. Please verify your username and password by logging into https://connect.garmin.com."

def mfaInvalidCn : String := "验证码无效或已过期。请重新获取验证码并重试。"

def mfaInvalidEn : String :=
  "Invalid or expired verification code. Please request a new code and try again."

def connectedCn : String := "Garmin账号已连接！OAuth令牌已保存，以后将自动同步。"

def connectedEn : String := "Garmin account connected! OAuth tokens saved for automatic sync."

def syncFailCn : String := "同步完成但有错误，请检查数据。"

def syncFailEn : String := "Sync completed with errors. Check your data."

def syncDefaultErr : String := "Failed to sync Garmin data"

def syncAuthCn : String := "认证失败，您的Garmin会话可能已过期。请重新连接Garmin账号。"

def syncAuthEn : String :=
  "Authentication failed. Your Garmin session may have expired. Please try reconnecting your Garmin account."

def syncRetryCn : String := "同步失败，请重试。"

def syncRetryEn : String := "Failed to sync Garmin data. Please try again."

def patMFA : String := "MFA"

def pat2FA : String := "2FA"

def patOTP : String := "OTP"

def patAuthApp : String := "authenticator"

def pat401 : String := "401"

def patInvalid : String := "Invalid"

def patExpired : String := "expired"

def patUnauthorized : String := "Unauthorized"

def patAuthWord : String := "authentication"

def urlGarminCn : String := "https://connect.garmin.cn"

def urlGarminCom : String := "https://connect.garmin.com"

end Msgs

/-- `errorMsg = err?.message || 'Failed to connect Garmin account'` in both
Garmin submit handlers. -/
def garminEffectiveConnectMsg (msg : String) : String :=
  if msg = "" then Msgs.connectFailDefault else msg

/-- The MFA-required test of `handleCredentialsSubmit` (part_001 line 268):
`err?.status === 400 || errorMsg.includes('MFA') || errorMsg.includes('2FA')
|| errorMsg.includes('OTP') || errorMsg.includes('authenticator')`. -/
def garminMfaRequiredPattern (status : Option Nat) (errorMsg : String) : Bool :=
  status == some 400 || strContains errorMsg Msgs.patMFA ||
    strContains errorMsg Msgs.pat2FA || strContains errorMsg Msgs.patOTP ||
    strContains errorMsg Msgs.patAuthApp

/-- The invalid-credentials test of `handleCredentialsSubmit` (line 272):
`err?.status === 401 || errorMsg.includes('401')`. -/
def garminInvalidCredPattern (status : Option Nat) (errorMsg : String) : Bool :=
  status == some 401 || strContains errorMsg Msgs.pat401

/-- The failed-MFA test of `handleMfaSubmit` (line 306). -/
def garminMfaFailPattern (status : Option Nat) (errorMsg : String) : Bool :=
  status == some 401 || strContains errorMsg Msgs.pat401 ||
    strContains errorMsg Msgs.patInvalid || strContains errorMsg Msgs.patExpired

/-- The authentication-error test in the catch branch of the Garmin
`handleSync` (line 398). -/
def garminSyncAuthPattern (errorMsg : String) : Bool :=
  strContains errorMsg Msgs.pat401 || strContains errorMsg Msgs.patUnauthorized ||
    strContains errorMsg Msgs.patAuthWord

/-- `result.last_sync_at || new Date().toISOString()`. -/
def orNow (v : Option String) (now : String) : String :=
  match v with
  | some t => if t = "" then now else t
  | none => now

/-- Region-appropriate invalid-credentials message (lines 273-281). -/
def garminInvalidCredMsg (isCn : Bool) : String :=
  if isCn then Msgs.invalidCredCn else Msgs.invalidCredEn

/-- Sync-complete message assembled at lines 380-384. -/
def garminSyncCompleteMsg (isCn : Bool) (r : GarminSyncResponse) : String :=
  if isCn then
    "同步完成：" ++ toString r.days_synced ++ " 天，" ++
      toString r.metrics_created ++ " 条新数据，" ++ toString r.metrics_updated ++ " 条更新"
  else
    "Sync complete: " ++ toString r.days_synced ++ " day(s) synced, " ++
      toString r.metrics_created ++ " new metrics, " ++ toString r.metrics_updated ++ " updated"

/-- Embedding of the Garmin card `handleSync` (part_001 lines 368-410).
`isCn` is passed explicitly because the JS closure reads the render-time
value, not a value written earlier in the same handler.  Besides the new
component state it returns the list of sync windows (in days) requested from
the backend: `handleSync` performs exactly one `syncGarmin(7)` call. -/
def garminHandleSync (isCn : Bool) (s : GarminCardState)
    (outcome : ApiOutcome GarminSyncResponse) (now : String) :
    GarminCardState × List Nat :=
  let s0 := { s with error := none, syncResult := none }
  match outcome with
  | .ok result =>
    let s1 := { s0 with
      connection := s0.connection.map
        (fun (c : GarminConnection) =>
          { c with last_sync_at := some (orNow result.last_sync_at now) }) }
    if result.success then
      ({ s1 with syncResult := some (garminSyncCompleteMsg isCn result) }, [7])
    else
      ({ s1 with error := some (if isCn then Msgs.syncFailCn else Msgs.syncFailEn) }, [7])
  | .err _ msg =>
    let errorMsg := if msg = "" then Msgs.syncDefaultErr else msg
    if garminSyncAuthPattern errorMsg then
      ({ s0 with error := some (if isCn then Msgs.syncAuthCn else Msgs.syncAuthEn) }, [7])
    else
      ({ s0 with error := some (if isCn then Msgs.syncRetryCn else Msgs.syncRetryEn) }, [7])

/-- Embedding of `handleConnectionSuccess` (part_001 lines 320-335): store the
returned connection snapshot, leave the login form, clear the volatile
credentials, then trigger the initial sync (`await handleSync()`). -/
def garminHandleConnectionSuccess (s : GarminCardState) (data : GarminConnection)
    (syncOutcome : ApiOutcome GarminSyncResponse) (now : String) :
    GarminCardState × List Nat :=
  let isCn0 := s.isCn
  let s1 := { s with
    connection := some data
    showLoginForm := false
    loginStep := .credentials
    syncResult := some (if isCn0 then Msgs.connectedCn else Msgs.connectedEn)
    username := ""
    password := ""
    mfaToken := ""
    isCn := false }
  garminHandleSync isCn0 s1 syncOutcome now

/-- The request issued by the first login attempt
(`connectGarmin(username, password, undefined, isCn)`, part_001 line 261). -/
def garminCredentialsRequest (s : GarminCardState) : GarminLoginRequest :=
  connectGarminBody s.username s.password none s.isCn

/-- The request issued by the second login attempt
(`connectGarmin(username, password, mfaToken, isCn)`, part_001 line 300). -/
def garminMfaRequest (s : GarminCardState) : GarminLoginRequest :=
  connectGarminBody s.username s.password (some s.mfaToken) s.isCn

/-- Embedding of `handleCredentialsSubmit` (part_001 lines 250-288). -/
def garminHandleCredentialsSubmit (s : GarminCardState)
    (api : ApiOutcome GarminConnection) (syncOutcome : ApiOutcome GarminSyncResponse)
    (now : String) : GarminCardState × List Nat :=
  if s.username = "" || s.password = "" then
    ({ s with error := some Msgs.credentialsGuard }, [])
  else
    match api with
    | .ok data => garminHandleConnectionSuccess { s with error := none } data syncOutcome now
    | .err status msg =>
      let errorMsg := garminEffectiveConnectMsg msg
      if garminMfaRequiredPattern status errorMsg then
        ({ s with error := none, loginStep := .mfa }, [])
      else if garminInvalidCredPattern status errorMsg then
        ({ s with error := some (garminInvalidCredMsg s.isCn) }, [])
      else
        ({ s with error := some (Msgs.connectFailGeneric ++ errorMsg) }, [])

/-- Embedding of `handleMfaSubmit` (part_001 lines 291-318). -/
def garminHandleMfaSubmit (s : GarminCardState)
    (api : ApiOutcome GarminConnection) (syncOutcome : ApiOutcome GarminSyncResponse)
    (now : String) : GarminCardState × List Nat :=
  if s.mfaToken = "" then
    ({ s with error := some Msgs.mfaGuard }, [])
  else
    match api with
    | .ok data => garminHandleConnectionSuccess { s with error := none } data syncOutcome now
    | .err status msg =>
      let errorMsg := garminEffectiveConnectMsg msg
      if garminMfaFailPattern status errorMsg then
        ({ s with error := some (if s.isCn then Msgs.mfaInvalidCn else Msgs.mfaInvalidEn) }, [])
      else
        ({ s with error := some (Msgs.connectFailGeneric ++ errorMsg) }, [])

/-- Embedding of `handleBackToCredentials` (part_001 lines 421-424). -/
def garminHandleBackToCredentials (s : GarminCardState) : GarminCardState :=
  { s with loginStep := .credentials, error := none }

/-- `StravaConnection` from src/frontend/types/api.ts (lines 197-205). -/
structure StravaConnection where
  connected : Bool
  athlete_name : Option String
  athlete_id : Option Int
  athlete_profile : Option String
  created_at : Option String
  last_sync_at : Option String
  sync_status : String
deriving Repr, DecidableEq

/-- `StravaSyncResponse` from src/frontend/types/api.ts (lines 238-244). -/
structure StravaSyncResponse where
  success : Bool
  activities_synced : Nat
  metrics_updated : Nat
  errors : List String
  last_sync_at : Option String
deriving Repr, DecidableEq

/-- Component state of `StravaConnectionCard` (transient spinner flags
omitted, as for the Garmin card). -/
structure StravaCardState where
  connection : Option StravaConnection
  hasConfig : Bool
  error : Option String
  syncResult : Option String
  showConfigForm : Bool
  clientId : String
  clientSecret : String
deriving Repr, DecidableEq

namespace Msgs

def stravaConnected : String := "Strava account connected successfully!"

def stravaCallbackFailDefault : String := "Failed to complete Strava connection"

def stravaConnFailGeneric : String := "Connection failed: "

def stravaSyncRetry : String := "Failed to sync Strava data. Please try again."

end Msgs

/-- Sync-complete message assembled at strava-connection-card.tsx lines 168-171. -/
def stravaSyncCompleteMsg (r : StravaSyncResponse) : String :=
  "Sync complete: " ++ toString r.activities_synced ++ " activity/activities synced, " ++
    toString r.metrics_updated ++ " health metric(s) updated"

/-- Embedding of the Strava card `handleSync` (strava-connection-card.tsx
lines 156-182); the single backend call is `syncStrava(30)`. -/
def stravaHandleSync (s : StravaCardState) (outcome : ApiOutcome StravaSyncResponse)
    (now : String) : StravaCardState × List Nat :=
  let s0 := { s with error := none, syncResult := none }
  match outcome with
  | .ok result =>
    let s1 := { s0 with
      connection := s0.connection.map
        (fun (c : StravaConnection) =>
          { c with last_sync_at := some (orNow result.last_sync_at now) }) }
    if result.success then
      ({ s1 with syncResult := some (stravaSyncCompleteMsg result) }, [30])
    else
      ({ s1 with error := some Msgs.syncFailEn }, [30])
  | .err _ _ =>
    ({ s0 with error := some Msgs.stravaSyncRetry }, [30])

/-- Embedding of `handleCallback` (strava-connection-card.tsx lines 115-130):
on a successful code exchange, store the returned connection snapshot and
trigger the initial sync; on failure surface the error. -/
def stravaHandleCallback (s : StravaCardState) (api : ApiOutcome StravaConnection)
    (syncOutcome : ApiOutcome StravaSyncResponse) (now : String) :
    StravaCardState × List Nat :=
  match api with
  | .ok data =>
    let s1 := { s with connection := some data, syncResult := some Msgs.stravaConnected }
    stravaHandleSync s1 syncOutcome now
  | .err _ msg =>
    let errorMsg := if msg = "" then Msgs.stravaCallbackFailDefault else msg
    ({ s with error := some (Msgs.stravaConnFailGeneric ++ errorMsg) }, [])

/-- Embedding of the callback-URL handling in `handleStravaCallback`
(strava-connection-card.tsx lines 40-53).  The URL is modelled by its `code`
query parameter.  Result: the `code` parameter left in the URL after the
effect, and the code handed to `handleCallback` (if any).  A truthy code is
removed from the URL via `history.replaceState` before being processed. -/
def processStravaCallbackUrl (codeParam : Option String) :
    Option String × Option String :=
  match codeParam with
  | some c => if c = "" then (some c, none) else (none, some c)
  | none => (none, none)

/-- Modelled from the spec: the server-side Strava authorization-code
exchange outcome tags (backend `/api/v1/strava/callback` handler is not under
src/); spec section 7 names `ReplayedAuthorizationCode` for code reuse. -/
inductive ExchangeOutcome where
  | accepted
  | replayedAuthorizationCode
deriving Repr, DecidableEq

/-- Modelled from the spec: the server-side single-use authorization-code
exchange (backend not under src/): "exchange must happen exactly once per
code (codes are single-use — a replayed code must fail cleanly, not retry)".
State is the set of already-exchanged codes. -/
def exchangeStravaCode (used : List String) (code : String) :
    ExchangeOutcome × List String :=
  if code ∈ used then (.replayedAuthorizationCode, used)
  else (.accepted, code :: used)

/-- A rendered status-badge variant (label + CSS class). -/
structure BadgeVariant where
  label : String
  className : String
deriving Repr, DecidableEq

namespace Css

def green : String := "bg-green-100 text-green-700 dark:bg-green-900 dark:text-green-400"

def red : String := "bg-red-100 text-red-700 dark:bg-red-900 dark:text-red-400"

def yellow : String := "bg-yellow-100 text-yellow-700 dark:bg-yellow-900 dark:text-yellow-400"

def gray : String := "bg-gray-100 text-gray-700 dark:bg-gray-800 dark:text-gray-400"

def greenB : String := "bg-green-100 text-green-700 dark:bg-green-900 dark:text-green-400 border-green-200 dark:border-green-800"

def redB : String := "bg-red-100 text-red-700 dark:bg-red-900 dark:text-red-400 border-red-200 dark:border-red-800"

def yellowB : String := "bg-yellow-100 text-yellow-700 dark:bg-yellow-900 dark:text-yellow-400 border-yellow-200 dark:border-yellow-800"

def grayB : String := "bg-gray-100 text-gray-700 dark:bg-gray-800 dark:text-gray-400 border-gray-200 dark:border-gray-700"

end Css

/-- Result of the JavaScript property access `variants[status]` on a plain
object literal: an own entry (one of the literal's data properties, a truthy
variant object), a value inherited from `Object.prototype` through the
prototype chain (a truthy function or object that is not a variant, so its
`.label` is undefined), or `undefined` (the only falsy case, the one that
lets `|| variants.not_connected` fire). -/
inductive JsProp (α : Type) where
  | own (v : α)
  | inherited
  | absent
deriving Repr, DecidableEq

/-- The property names every plain object literal inherits from
`Object.prototype` (including the `__proto__` accessor): for these,
`variants[name]` evaluates to a truthy inherited value, never to
`undefined`. -/
def objectPrototypeKeys : List String :=
  [ "constructor", "__defineGetter__", "__defineSetter__", "hasOwnProperty",
    "__lookupGetter__", "__lookupSetter__", "isPrototypeOf",
    "propertyIsEnumerable", "toString", "valueOf", "__proto__",
    "toLocaleString"]

/-- The `not_connected` variant of the Garmin card `StatusBadge`. -/
def garminVariantNotConnected (isCn : Bool) : BadgeVariant :=
  { label := if isCn then "未连接" else "Not Connected", className := Css.gray }

/-- The own entries of the Garmin card `StatusBadge` `variants` object
literal (part_001 lines 598-616). -/
def garminOwnVariant (isCn : Bool) (status : String) : Option BadgeVariant :=
  if status = "connected" then
    some { label := if isCn then "已连接" else "Connected", className := Css.green }
  else if status = "error" then
    some { label := if isCn then "错误" else "Error", className := Css.red }
  else if status = "expired" then
    some { label := if isCn then "已过期" else "Expired", className := Css.yellow }
  else if status = "not_connected" then
    some (garminVariantNotConnected isCn)
  else none

/-- The JavaScript access `variants[status]` in the Garmin `StatusBadge`:
own entry first, then the prototype chain, else undefined. -/
def garminBadgeAccess (isCn : Bool) (status : String) : JsProp BadgeVariant :=
  match garminOwnVariant isCn status with
  | some v => .own v
  | none => if status ∈ objectPrototypeKeys then .inherited else .absent

/-- `variants[status] || variants.not_connected` in the Garmin `StatusBadge`
(part_001 line 618): the fallback fires only when the access result is falsy
(undefined) — a truthy inherited value is kept. -/
def garminBadgeResolved (isCn : Bool) (status : String) : JsProp BadgeVariant :=
  match garminBadgeAccess isCn status with
  | .absent => .own (garminVariantNotConnected isCn)
  | r => r

/-- The `not_connected` variant of the Strava card `StatusBadge`. -/
def stravaVariantNotConnected : BadgeVariant :=
  { label := "Not Connected", className := Css.gray }

/-- The own entries of the Strava card `StatusBadge` `variants` object
literal (strava-connection-card.tsx lines 469-488). -/
def stravaOwnVariant (status : String) : Option BadgeVariant :=
  if status = "connected" then some { label := "Connected", className := Css.green }
  else if status = "error" then some { label := "Error", className := Css.red }
  else if status = "expired" then some { label := "Expired", className := Css.yellow }
  else if status = "not_connected" then some stravaVariantNotConnected
  else none

/-- The JavaScript access `variants[status]` in the Strava `StatusBadge`:
own entry first, then the prototype chain, else undefined. -/
def stravaBadgeAccess (status : String) : JsProp BadgeVariant :=
  match stravaOwnVariant status with
  | some v => .own v
  | none => if status ∈ objectPrototypeKeys then .inherited else .absent

/-- `variants[status] || variants.not_connected` in the Strava `StatusBadge`
(strava-connection-card.tsx line 489). -/
def stravaBadgeResolved (status : String) : JsProp BadgeVariant :=
  match stravaBadgeAccess status with
  | .absent => .own stravaVariantNotConnected
  | r => r

/-- A rendered `SyncStatusBadge` variant; the icon React node is represented
by the name of the icon component. -/
structure SyncBadgeVariant where
  icon : String
  label : String
  className : String
deriving Repr, DecidableEq

/-- The `not_connected` variant of the shared `SyncStatusBadge`. -/
def syncVariantNotConnected : SyncBadgeVariant :=
  { icon := "Clock", label := "Not Connected", className := Css.grayB }

/-- The own entries of the shared `SyncStatusBadge` `variants` object
literal (part_001 second component, lines 636-662). -/
def syncOwnVariant (status : String) : Option SyncBadgeVariant :=
  if status = "connected" then
    some { icon := "CheckCircle2", label := "Synced", className := Css.greenB }
  else if status = "error" then
    some { icon := "AlertTriangle", label := "Error", className := Css.redB }
  else if status = "expired" then
    some { icon := "XCircle", label := "Expired", className := Css.yellowB }
  else if status = "not_connected" then
    some syncVariantNotConnected
  else none

/-- The JavaScript access `variants[status]` in `SyncStatusBadge`: own entry
first, then the prototype chain, else undefined. -/
def syncBadgeAccess (status : String) : JsProp SyncBadgeVariant :=
  match syncOwnVariant status with
  | some v => .own v
  | none => if status ∈ objectPrototypeKeys then .inherited else .absent

/-- `variants[status] || variants.not_connected` in `SyncStatusBadge`
(part_001 line 664). -/
def syncBadgeResolved (status : String) : JsProp SyncBadgeVariant :=
  match syncBadgeAccess status with
  | .absent => .own syncVariantNotConnected
  | r => r

/-- The label the badge renders, `variant.label`: a string only when the
resolved value is an actual variant object; on an inherited
`Object.prototype` member the access yields undefined (`none`). -/
def jsPropLabel : JsProp BadgeVariant → Option String
  | .own v => some v.label
  | .inherited => none
  | .absent => none

/-- `variant.label` for `SyncStatusBadge` variants, as `jsPropLabel`. -/
def jsPropLabelSync : JsProp SyncBadgeVariant → Option String
  | .own v => some v.label
  | .inherited => none
  | .absent => none

/-- Field names of `GarminSyncResponse` (src/frontend/types/api.ts 177-184),
in declaration order. -/
def garminSyncResponseFields : List String :=
  [ "success", "days_synced", "metrics_created", "metrics_updated", "errors",
    "last_sync_at"]

/-- Field names of `StravaSyncResponse` (src/frontend/types/api.ts 238-244),
in declaration order. -/
def stravaSyncResponseFields : List String :=
  [ "success", "activities_synced", "metrics_updated", "errors", "last_sync_at"]

/-- The sync result fields named by the specification contract
`sync(user_id, provider, window) -> {success, items_synced, items_created,
items_updated, errors, last_sync_at}` (spec sections 4.3 and 6). -/
def specSyncContractFields : List String :=
  [ "success", "items_synced", "items_created", "items_updated", "errors",
    "last_sync_at"]

/-- The per-day `HealthMetric` fields that Garmin reconciliation merges
(data model, spec section 3 and src/frontend/types/api.ts 35-57). -/
inductive MetricField where
  | sleep_hours
  | light_sleep_hours
  | deep_sleep_hours
  | rem_sleep_hours
  | resting_heart_rate
  | stress_level
  | exercise_minutes
  | steps
  | calories
  | distance_km
  | body_battery
  | spo2
  | respiration_rate
  | sleep_score
deriving Repr, DecidableEq

/-- A `HealthMetric` row restricted to its mergeable fields: each field is
present (`some`) or absent (`none`). -/
def HealthMetricRow (α : Type) : Type :=
  MetricField → Option α

/-- Modelled from the spec: the Garmin sync field-level merge (the backend
reconciliation service is not under src/): "a field already present locally
from manual entry is preserved if the remote value is absent/null; otherwise
the remote value wins" (spec section 4.3). -/
def mergeGarminSync {α : Type} (localRow remoteRow : HealthMetricRow α) :
    HealthMetricRow α :=
  fun f =>
    match remoteRow f with
    | some v => some v
    | none => localRow f

/-- Natural key of an `ExternalActivity` row: (user_id, provider_activity_id)
(spec section 3). -/
abbrev ActivityKey : Type := Nat × Nat

/-- Modelled from the spec: upsert-by-external-id into the local
`ExternalActivity` table (backend reconciliation not under src/): "if the id
exists locally, the row's mutable fields are refreshed; otherwise a new row
is inserted" (spec section 4.3).  The table is the list of rows. -/
def upsertRow {α : Type} (rows : List (ActivityKey × α)) (k : ActivityKey)
    (c : α) : List (ActivityKey × α) :=
  if k ∈ rows.map Prod.fst then
    rows.map (fun p => if p.1 = k then (k, c) else p)
  else
    rows ++ [(k, c)]

/-- Modelled from the spec: one Strava sync pass over the remote records of a
window (backend sync engine not under src/): each remote record is upserted
by its natural key; the pass reports (final table, items_created,
items_updated) per the spec section 4.3 contract. -/
def syncRun {α : Type} : List (ActivityKey × α) → List (ActivityKey × α) →
    List (ActivityKey × α) × Nat × Nat
  | rows, [] => (rows, 0, 0)
  | rows, (k, c) :: rest =>
    let r := syncRun (upsertRow rows k c) rest
    if k ∈ rows.map Prod.fst then
      (r.1, r.2.1, r.2.2 + 1)
    else
      (r.1, r.2.1 + 1, r.2.2)

/-- Sample connected Garmin snapshot, used by concrete witnesses. -/
def gconnSample : GarminConnection :=
  { connected := true
    garmin_display_name := some "Alice"
    garmin_user_id := some "garmin-1"
    created_at := some "2024-01-01T00:00:00"
    last_sync_at := some "2024-05-01T10:00:00"
    sync_status := "connected" }

/-- Sample Garmin card state sitting on the credentials step. -/
def gStateSample : GarminCardState :=
  { connection := none
    error := none
    syncResult := none
    showLoginForm := true
    loginStep := .credentials
    username := "alice@example.com"
    password := "hunter2pw"
    mfaToken := ""
    isCn := false }

/-- Sample Garmin card state sitting on the MFA step. -/
def gStateMfaSample : GarminCardState :=
  { gStateSample with loginStep := .mfa, mfaToken := "123456" }

/-- Sample Garmin card state of an already-linked card. -/
def gStateLinkedSample : GarminCardState :=
  { connection := some gconnSample
    error := none
    syncResult := none
    showLoginForm := false
    loginStep := .credentials
    username := ""
    password := ""
    mfaToken := ""
    isCn := false }

/-- Sample connected Strava snapshot, used by concrete witnesses. -/
def sconnSample : StravaConnection :=
  { connected := true
    athlete_name := some "Bob"
    athlete_id := some 42
    athlete_profile := some "https://strava.example/bob"
    created_at := some "2024-02-02T00:00:00"
    last_sync_at := some "2024-05-02T11:00:00"
    sync_status := "connected" }

/-- Sample Strava card state of an already-linked card. -/
def sStateSample : StravaCardState :=
  { connection := some sconnSample
    hasConfig := true
    error := none
    syncResult := none
    showConfigForm := false
    clientId := ""
    clientSecret := "" }

/-- Sample locally (manually) filled health-metric row for witnesses. -/
def manualRowSample : HealthMetricRow Nat :=
  fun f =>
    match f with
    | .steps => some 9000
    | .sleep_hours => some 8
    | _ => none

/-- Sample remote Garmin record with some fields absent, for witnesses. -/
def remoteRowSample : HealthMetricRow Nat :=
  fun f =>
    match f with
    | .calories => some 500
    | .sleep_hours => some 7
    | _ => none

/-- The windows list of the Garmin `handleSync` is always the single 7-day
request, whatever the outcome. -/
theorem garminHandleSync_snd (isCn : Bool) (s : GarminCardState)
    (so : ApiOutcome GarminSyncResponse) (now : String) :
    (garminHandleSync isCn s so now).2 = [7] := by
  cases so with
  | ok r => by_cases h : r.success <;> simp [garminHandleSync, h]
  | err st m =>
    by_cases h : garminSyncAuthPattern (if m = "" then Msgs.syncDefaultErr else m) <;>
      simp [garminHandleSync, h]

/-- Garmin `handleSync` only ever touches `last_sync_at` on the cached
connection snapshot. -/
theorem garminHandleSync_connection (isCn : Bool) (s : GarminCardState)
    (c : GarminConnection) (so : ApiOutcome GarminSyncResponse) (now : String)
    (h : s.connection = some c) :
    ∃ ls, (garminHandleSync isCn s so now).1.connection
      = some { c with last_sync_at := ls } := by
  cases so with
  | ok r =>
    refine ⟨some (orNow r.last_sync_at now), ?_⟩
    by_cases hs : r.success <;> simp [garminHandleSync, h, hs]
  | err st m =>
    refine ⟨c.last_sync_at, ?_⟩
    by_cases hp : garminSyncAuthPattern (if m = "" then Msgs.syncDefaultErr else m) <;>
      simp [garminHandleSync, h, hp]

/-- `handleConnectionSuccess` stores the returned snapshot (up to the
`last_sync_at` refresh done by the triggered sync) and requests exactly one
7-day sync. -/
theorem garminHandleConnectionSuccess_spec (s : GarminCardState)
    (data : GarminConnection) (so : ApiOutcome GarminSyncResponse) (now : String) :
    (garminHandleConnectionSuccess s data so now).2 = [7] ∧
    ∃ ls, (garminHandleConnectionSuccess s data so now).1.connection
      = some { data with last_sync_at := ls } := by
  simp only [garminHandleConnectionSuccess]
  exact ⟨garminHandleSync_snd _ _ _ _, garminHandleSync_connection _ _ data _ _ rfl⟩

/-- The windows list of the Strava `handleSync` is always the single 30-day
request. -/
theorem stravaHandleSync_snd (s : StravaCardState)
    (so : ApiOutcome StravaSyncResponse) (now : String) :
    (stravaHandleSync s so now).2 = [30] := by
  cases so with
  | ok r => by_cases h : r.success <;> simp [stravaHandleSync, h]
  | err st m => simp [stravaHandleSync]

/-- Strava `handleSync` only ever touches `last_sync_at` on the cached
connection snapshot. -/
theorem stravaHandleSync_connection (s : StravaCardState)
    (c : StravaConnection) (so : ApiOutcome StravaSyncResponse) (now : String)
    (h : s.connection = some c) :
    ∃ ls, (stravaHandleSync s so now).1.connection
      = some { c with last_sync_at := ls } := by
  cases so with
  | ok r =>
    refine ⟨some (orNow r.last_sync_at now), ?_⟩
    by_cases hs : r.success <;> simp [stravaHandleSync, h, hs]
  | err st m =>
    exact ⟨c.last_sync_at, by simp [stravaHandleSync, h]⟩

/-- C1: on the Garmin link flow's first (username, password) submission the
login request carries no MFA code; an MFA-required outcome is non-terminal:
the card clears any displayed error and moves to the MFA step, keeping the
entered username and password (and the current connection, i.e. nothing is
persisted) and issuing no sync; the second attempt's request reuses exactly
those credentials. -/
theorem garmin_first_attempt_no_mfa_then_awaits_mfa
    (s : GarminCardState) (status : Option Nat) (msg : String)
    (syncOutcome : ApiOutcome GarminSyncResponse) (now : String)
    (hu : s.username ≠ "") (hp : s.password ≠ "")
    (hmfa : garminMfaRequiredPattern status (garminEffectiveConnectMsg msg) = true) :
    (garminCredentialsRequest s).mfa_token = none ∧
    garminHandleCredentialsSubmit s (.err status msg) syncOutcome now
      = ({ s with error := none, loginStep := .mfa }, []) ∧
    (garminMfaRequest { s with error := none, loginStep := .mfa }).username
      = s.username ∧
    (garminMfaRequest { s with error := none, loginStep := .mfa }).password
      = s.password := by
  refine ⟨rfl, ?_, rfl, rfl⟩
  simp only [garminHandleCredentialsSubmit, hu, hp, hmfa, decide_False,
    Bool.false_or, Bool.or_false, if_true, if_false, decide_eq_true_eq]
  simp [hu, hp, hmfa]

/-- Closed witness for the C1 theorem at a concrete state and outcome. -/
theorem garmin_first_attempt_no_mfa_then_awaits_mfa_witness :
    (garminCredentialsRequest gStateSample).mfa_token = none ∧
    garminHandleCredentialsSubmit gStateSample (.err (some 400) "MFA required")
        (.err none "unused") "2024-06-01T00:00:00"
      = ({ gStateSample with error := none, loginStep := .mfa }, []) ∧
    (garminMfaRequest { gStateSample with error := none, loginStep := .mfa }).username
      = gStateSample.username ∧
    (garminMfaRequest { gStateSample with error := none, loginStep := .mfa }).password
      = gStateSample.password :=
  garmin_first_attempt_no_mfa_then_awaits_mfa gStateSample (some 400)
    "MFA required" (.err none "unused") "2024-06-01T00:00:00"
    (by decide) (by decide) (by decide)

/-- C6: the Garmin first-attempt failure handling never collapses
InvalidCredentials and MfaRequired: an outcome matching the MFA-required
test advances the flow with no error, while a 401-equivalent outcome (not
matching the MFA test) leaves the step unchanged and surfaces an error whose
text carries the region-appropriate login URL (garmin.cn when the China flag
is set, garmin.com otherwise, never the other). -/
theorem garmin_invalid_cred_vs_mfa_distinct
    (s : GarminCardState) (status : Option Nat) (msg : String)
    (syncOutcome : ApiOutcome GarminSyncResponse) (now : String)
    (hu : s.username ≠ "") (hp : s.password ≠ "") :
    (garminMfaRequiredPattern status (garminEffectiveConnectMsg msg) = true →
      (garminHandleCredentialsSubmit s (.err status msg) syncOutcome now).1.error
          = none ∧
      (garminHandleCredentialsSubmit s (.err status msg) syncOutcome now).1.loginStep
          = .mfa) ∧
    (garminMfaRequiredPattern status (garminEffectiveConnectMsg msg) = false →
     garminInvalidCredPattern status (garminEffectiveConnectMsg msg) = true →
      (garminHandleCredentialsSubmit s (.err status msg) syncOutcome now).1.error
          = some (garminInvalidCredMsg s.isCn) ∧
      (garminHandleCredentialsSubmit s (.err status msg) syncOutcome now).1.loginStep
          = s.loginStep) ∧
    strContains (garminInvalidCredMsg true) Msgs.urlGarminCn = true ∧
    strContains (garminInvalidCredMsg false) Msgs.urlGarminCom = true ∧
    strContains (garminInvalidCredMsg false) Msgs.urlGarminCn = false ∧
    strContains (garminInvalidCredMsg true) Msgs.urlGarminCom = false := by
  refine ⟨?_, ?_, by decide, by decide, by decide, by decide⟩
  · intro hmfa
    simp [garminHandleCredentialsSubmit, hu, hp, hmfa]
  · intro hmfa h401
    simp [garminHandleCredentialsSubmit, hu, hp, hmfa, h401]

/-- Closed witness for the C6 theorem: a 400/MFA outcome and a 401 outcome
at a concrete state. -/
theorem garmin_invalid_cred_vs_mfa_distinct_witness :
    ((garminHandleCredentialsSubmit gStateSample (.err (some 400) "MFA required")
        (.err none "unused") "2024-06-01T00:00:00").1.error = none ∧
     (garminHandleCredentialsSubmit gStateSample (.err (some 400) "MFA required")
        (.err none "unused") "2024-06-01T00:00:00").1.loginStep = .mfa) ∧
    ((garminHandleCredentialsSubmit gStateSample (.err (some 401) "bad password")
        (.err none "unused") "2024-06-01T00:00:00").1.error
        = some (garminInvalidCredMsg gStateSample.isCn) ∧
     (garminHandleCredentialsSubmit gStateSample (.err (some 401) "bad password")
        (.err none "unused") "2024-06-01T00:00:00").1.loginStep
        = gStateSample.loginStep) := by
  constructor
  · exact (garmin_invalid_cred_vs_mfa_distinct gStateSample (some 400)
      "MFA required" (.err none "unused") "2024-06-01T00:00:00"
      (by decide) (by decide)).1 (by decide)
  · exact (garmin_invalid_cred_vs_mfa_distinct gStateSample (some 401)
      "bad password" (.err none "unused") "2024-06-01T00:00:00"
      (by decide) (by decide)).2.1 (by decide) (by decide)

/-- C7: a failed second-attempt MFA submission keeps the Garmin flow on the
MFA step with an error displayed, preserving the entered username and
password so the code can be retried, and the explicit back action returns to
the credentials step and clears the error. -/
theorem garmin_mfa_failure_stays_awaiting_mfa
    (s : GarminCardState) (status : Option Nat) (msg : String)
    (syncOutcome : ApiOutcome GarminSyncResponse) (now : String)
    (hstep : s.loginStep = .mfa) (hm : s.mfaToken ≠ "") :
    (garminHandleMfaSubmit s (.err status msg) syncOutcome now).1.loginStep
        = .mfa ∧
    (∃ e, (garminHandleMfaSubmit s (.err status msg) syncOutcome now).1.error
        = some e) ∧
    (garminHandleMfaSubmit s (.err status msg) syncOutcome now).1.username
        = s.username ∧
    (garminHandleMfaSubmit s (.err status msg) syncOutcome now).1.password
        = s.password ∧
    (garminHandleMfaSubmit s (.err status msg) syncOutcome now).2 = [] ∧
    (garminHandleBackToCredentials
        (garminHandleMfaSubmit s (.err status msg) syncOutcome now).1).loginStep
        = .credentials ∧
    (garminHandleBackToCredentials
        (garminHandleMfaSubmit s (.err status msg) syncOutcome now).1).error
        = none := by
  by_cases hfail :
      garminMfaFailPattern status (garminEffectiveConnectMsg msg) = true
  · simp [garminHandleMfaSubmit, garminHandleBackToCredentials, hm, hstep, hfail]
  · simp at hfail
    simp [garminHandleMfaSubmit, garminHandleBackToCredentials, hm, hstep, hfail]

/-- Closed witness for the C7 theorem at a concrete MFA-step state. -/
theorem garmin_mfa_failure_stays_awaiting_mfa_witness :
    (garminHandleMfaSubmit gStateMfaSample (.err (some 401) "Invalid code")
        (.err none "unused") "2024-06-01T00:00:00").1.loginStep = .mfa ∧
    (∃ e, (garminHandleMfaSubmit gStateMfaSample (.err (some 401) "Invalid code")
        (.err none "unused") "2024-06-01T00:00:00").1.error = some e) ∧
    (garminHandleMfaSubmit gStateMfaSample (.err (some 401) "Invalid code")
        (.err none "unused") "2024-06-01T00:00:00").1.username
        = gStateMfaSample.username ∧
    (garminHandleMfaSubmit gStateMfaSample (.err (some 401) "Invalid code")
        (.err none "unused") "2024-06-01T00:00:00").1.password
        = gStateMfaSample.password ∧
    (garminHandleMfaSubmit gStateMfaSample (.err (some 401) "Invalid code")
        (.err none "unused") "2024-06-01T00:00:00").2 = [] ∧
    (garminHandleBackToCredentials
        (garminHandleMfaSubmit gStateMfaSample (.err (some 401) "Invalid code")
          (.err none "unused") "2024-06-01T00:00:00").1).loginStep
        = .credentials ∧
    (garminHandleBackToCredentials
        (garminHandleMfaSubmit gStateMfaSample (.err (some 401) "Invalid code")
          (.err none "unused") "2024-06-01T00:00:00").1).error = none :=
  garmin_mfa_failure_stays_awaiting_mfa gStateMfaSample (some 401)
    "Invalid code" (.err none "unused") "2024-06-01T00:00:00" (by decide) (by decide)

/-- C2: every successful account link — Garmin credential success, Garmin
MFA success, or Strava OAuth callback success — stores the returned connected
connection snapshot (the triggered sync may then refresh its `last_sync_at`)
and triggers exactly one initial sync pass; the Garmin initial sync requests
a 7-day window (the Strava one a 30-day window). -/
theorem successful_link_stores_snapshot_and_syncs_once
    (s s2 : GarminCardState) (data : GarminConnection)
    (so : ApiOutcome GarminSyncResponse) (now : String)
    (t : StravaCardState) (sdata : StravaConnection)
    (sso : ApiOutcome StravaSyncResponse)
    (hu : s.username ≠ "") (hp : s.password ≠ "") (hm : s2.mfaToken ≠ "") :
    ((garminHandleCredentialsSubmit s (.ok data) so now).2 = [7] ∧
     ∃ ls, (garminHandleCredentialsSubmit s (.ok data) so now).1.connection
        = some { data with last_sync_at := ls }) ∧
    ((garminHandleMfaSubmit s2 (.ok data) so now).2 = [7] ∧
     ∃ ls, (garminHandleMfaSubmit s2 (.ok data) so now).1.connection
        = some { data with last_sync_at := ls }) ∧
    ((stravaHandleCallback t (.ok sdata) sso now).2 = [30] ∧
     ∃ ls, (stravaHandleCallback t (.ok sdata) sso now).1.connection
        = some { sdata with last_sync_at := ls }) := by
  have e1 : garminHandleCredentialsSubmit s (.ok data) so now
      = garminHandleConnectionSuccess { s with error := none } data so now := by
    simp [garminHandleCredentialsSubmit, hu, hp]
  have e2 : garminHandleMfaSubmit s2 (.ok data) so now
      = garminHandleConnectionSuccess { s2 with error := none } data so now := by
    simp [garminHandleMfaSubmit, hm]
  have e3 : stravaHandleCallback t (.ok sdata) sso now
      = stravaHandleSync
          { t with connection := some sdata, syncResult := some Msgs.stravaConnected }
          sso now := by
    simp [stravaHandleCallback]
  rw [e1, e2, e3]
  exact ⟨garminHandleConnectionSuccess_spec _ _ _ _,
    garminHandleConnectionSuccess_spec _ _ _ _,
    stravaHandleSync_snd _ _ _, stravaHandleSync_connection _ sdata _ _ rfl⟩

/-- Closed witness for the C2 theorem at concrete states and snapshots. -/
theorem successful_link_stores_snapshot_and_syncs_once_witness :
    ((garminHandleCredentialsSubmit gStateSample (.ok gconnSample)
        (.err none "boom") "2024-06-01T00:00:00").2 = [7] ∧
     ∃ ls, (garminHandleCredentialsSubmit gStateSample (.ok gconnSample)
        (.err none "boom") "2024-06-01T00:00:00").1.connection
        = some { gconnSample with last_sync_at := ls }) ∧
    ((garminHandleMfaSubmit gStateMfaSample (.ok gconnSample)
        (.err none "boom") "2024-06-01T00:00:00").2 = [7] ∧
     ∃ ls, (garminHandleMfaSubmit gStateMfaSample (.ok gconnSample)
        (.err none "boom") "2024-06-01T00:00:00").1.connection
        = some { gconnSample with last_sync_at := ls }) ∧
    ((stravaHandleCallback sStateSample (.ok sconnSample)
        (.err none "boom") "2024-06-01T00:00:00").2 = [30] ∧
     ∃ ls, (stravaHandleCallback sStateSample (.ok sconnSample)
        (.err none "boom") "2024-06-01T00:00:00").1.connection
        = some { sconnSample with last_sync_at := ls }) :=
  successful_link_stores_snapshot_and_syncs_once gStateSample gStateMfaSample
    gconnSample (.err none "boom") "2024-06-01T00:00:00" sStateSample
    sconnSample (.err none "boom") (by decide) (by decide) (by decide)

/-- C9 counterexample: a Garmin sync attempt whose HTTP call throws (here a
network error) leaves the cached connection untouched — `last_sync_at` keeps
its stale value and `sync_status` is not written — contradicting the claim
that every failed attempt refreshes `last_sync_at` and `sync_status`. -/
theorem garmin_thrown_sync_leaves_connection_stale :
    (garminHandleSync false gStateLinkedSample (.err none "Network error")
        "2024-06-01T12:00:00").1.connection = some gconnSample ∧
    gconnSample.last_sync_at = some "2024-05-01T10:00:00" ∧
    ("2024-05-01T10:00:00" : String) ≠ "2024-06-01T12:00:00" := by
  refine ⟨?_, rfl, by decide⟩
  have h : garminSyncAuthPattern "Network error" = false := by decide
  simp [garminHandleSync, gStateLinkedSample, h]

/-- C9 amended: when the sync HTTP call resolves (whether the reported
`success` is true or false), both cards refresh the cached connection's
`last_sync_at` to the reported value, or to the current attempt time when
none is reported, and leave every other field (including `sync_status`)
unchanged; when the call throws, the cached connection is left entirely
unchanged. -/
theorem resolved_sync_updates_last_sync_at
    (isCn : Bool) (s : GarminCardState) (c : GarminConnection)
    (r : GarminSyncResponse) (status : Option Nat) (msg now : String)
    (t : StravaCardState) (d : StravaConnection) (rs : StravaSyncResponse)
    (status2 : Option Nat) (msg2 : String)
    (hg : s.connection = some c) (hs : t.connection = some d) :
    (garminHandleSync isCn s (.ok r) now).1.connection
       = some { c with last_sync_at := some (orNow r.last_sync_at now) } ∧
    (garminHandleSync isCn s (.err status msg) now).1.connection = some c ∧
    (stravaHandleSync t (.ok rs) now).1.connection
       = some { d with last_sync_at := some (orNow rs.last_sync_at now) } ∧
    (stravaHandleSync t (.err status2 msg2) now).1.connection = some d := by
  refine ⟨?_, ?_, ?_, ?_⟩
  · by_cases h : r.success <;> simp [garminHandleSync, hg, h]
  · by_cases h : garminSyncAuthPattern (if msg = "" then Msgs.syncDefaultErr else msg) <;>
      simp [garminHandleSync, hg, h]
  · by_cases h : rs.success <;> simp [stravaHandleSync, hs, h]
  · simp [stravaHandleSync, hs]

/-- Closed witness for the amended C9 theorem at concrete states. -/
theorem resolved_sync_updates_last_sync_at_witness :
    (garminHandleSync false gStateLinkedSample
        (.ok { success := false, days_synced := 0, metrics_created := 0,
               metrics_updated := 0, errors := [ "day 3 failed"],
               last_sync_at := none }) "2024-06-01T12:00:00").1.connection
      = some { gconnSample with last_sync_at := some "2024-06-01T12:00:00" } ∧
    (garminHandleSync false gStateLinkedSample (.err none "Network error")
        "2024-06-01T12:00:00").1.connection = some gconnSample ∧
    (stravaHandleSync sStateSample
        (.ok { success := true, activities_synced := 3, metrics_updated := 1,
               errors := [], last_sync_at := some "2024-06-01T12:00:01" })
        "2024-06-01T12:00:00").1.connection
      = some { sconnSample with last_sync_at := some "2024-06-01T12:00:01" } ∧
    (stravaHandleSync sStateSample (.err none "Network error")
        "2024-06-01T12:00:00").1.connection = some sconnSample :=
  resolved_sync_updates_last_sync_at false gStateLinkedSample gconnSample
    { success := false, days_synced := 0, metrics_created := 0,
      metrics_updated := 0, errors := [ "day 3 failed"], last_sync_at := none }
    none "Network error" "2024-06-01T12:00:00" sStateSample sconnSample
    { success := true, activities_synced := 3, metrics_updated := 1,
      errors := [], last_sync_at := some "2024-06-01T12:00:01" }
    none "Network error" rfl rfl

/-- C10 counterexample: the badge lookup is not total with not_connected
fallback over arbitrary status strings — at status "toString" (not one of
the four known keys) `variants[status]` finds the inherited truthy
`Object.prototype.toString`, the `||` fallback does not fire in any of the
three badges, and the rendered `variant.label` is undefined rather than
"Not Connected". -/
theorem badge_lookup_inherits_object_prototype :
    ("toString" : String) ≠ "connected" ∧ ("toString" : String) ≠ "error" ∧
    ("toString" : String) ≠ "expired" ∧
    ("toString" : String) ≠ "not_connected" ∧
    garminBadgeResolved false "toString" = .inherited ∧
    stravaBadgeResolved "toString" = .inherited ∧
    syncBadgeResolved "toString" = .inherited ∧
    garminBadgeResolved false "toString"
        ≠ .own (garminVariantNotConnected false) ∧
    stravaBadgeResolved "toString" ≠ .own stravaVariantNotConnected ∧
    syncBadgeResolved "toString" ≠ .own syncVariantNotConnected ∧
    jsPropLabel (garminBadgeResolved false "toString") = none ∧
    jsPropLabel (stravaBadgeResolved "toString") = none ∧
    jsPropLabelSync (syncBadgeResolved "toString") = none := by
  decide

/-- C10 amended: for every status string that is neither one of the four
known keys nor the name of an inherited `Object.prototype` property, all
three badges resolve to the not_connected variant and display
"Not Connected"; for an `Object.prototype` property name the lookup instead
keeps the truthy inherited value, the fallback does not fire, and the
rendered label is undefined. -/
theorem status_badges_fallback_outside_prototype
    (status : String) (isCn : Bool)
    (h1 : status ≠ "connected") (h2 : status ≠ "error")
    (h3 : status ≠ "expired") (h4 : status ≠ "not_connected") :
    (status ∉ objectPrototypeKeys →
      garminBadgeResolved isCn status = .own (garminVariantNotConnected isCn) ∧
      stravaBadgeResolved status = .own stravaVariantNotConnected ∧
      syncBadgeResolved status = .own syncVariantNotConnected ∧
      jsPropLabel (garminBadgeResolved false status) = some "Not Connected" ∧
      jsPropLabel (stravaBadgeResolved status) = some "Not Connected" ∧
      jsPropLabelSync (syncBadgeResolved status) = some "Not Connected") ∧
    (status ∈ objectPrototypeKeys →
      garminBadgeResolved isCn status = .inherited ∧
      stravaBadgeResolved status = .inherited ∧
      syncBadgeResolved status = .inherited ∧
      jsPropLabel (garminBadgeResolved isCn status) = none ∧
      jsPropLabel (stravaBadgeResolved status) = none ∧
      jsPropLabelSync (syncBadgeResolved status) = none) := by
  constructor
  · intro hp
    simp [garminBadgeResolved, stravaBadgeResolved, syncBadgeResolved,
      garminBadgeAccess, stravaBadgeAccess, syncBadgeAccess,
      garminOwnVariant, stravaOwnVariant, syncOwnVariant,
      h1, h2, h3, h4, hp, jsPropLabel, jsPropLabelSync,
      garminVariantNotConnected, stravaVariantNotConnected,
      syncVariantNotConnected]
  · intro hp
    simp [garminBadgeResolved, stravaBadgeResolved, syncBadgeResolved,
      garminBadgeAccess, stravaBadgeAccess, syncBadgeAccess,
      garminOwnVariant, stravaOwnVariant, syncOwnVariant,
      h1, h2, h3, h4, hp, jsPropLabel, jsPropLabelSync]

/-- Closed witness for the amended C10 theorem: an arbitrary unknown status
falls back to Not Connected, an `Object.prototype` property name does not. -/
theorem status_badges_fallback_outside_prototype_witness :
    (garminBadgeResolved false "totally_unknown"
        = .own (garminVariantNotConnected false) ∧
     stravaBadgeResolved "totally_unknown" = .own stravaVariantNotConnected ∧
     syncBadgeResolved "totally_unknown" = .own syncVariantNotConnected ∧
     jsPropLabel (garminBadgeResolved false "totally_unknown")
        = some "Not Connected" ∧
     jsPropLabel (stravaBadgeResolved "totally_unknown")
        = some "Not Connected" ∧
     jsPropLabelSync (syncBadgeResolved "totally_unknown")
        = some "Not Connected") ∧
    (garminBadgeResolved false "valueOf" = .inherited ∧
     stravaBadgeResolved "valueOf" = .inherited ∧
     syncBadgeResolved "valueOf" = .inherited ∧
     jsPropLabel (garminBadgeResolved false "valueOf") = none ∧
     jsPropLabel (stravaBadgeResolved "valueOf") = none ∧
     jsPropLabelSync (syncBadgeResolved "valueOf") = none) := by
  constructor
  · exact (status_badges_fallback_outside_prototype "totally_unknown" false
      (by decide) (by decide) (by decide) (by decide)).1 (by decide)
  · exact (status_badges_fallback_outside_prototype "valueOf" false
      (by decide) (by decide) (by decide) (by decide)).2 (by decide)

/-- C3: the Garmin reconciliation merge never clobbers a locally present
field with a remote null — a field for which the remote record carries no
value keeps its local value, and only fields the remote record does provide
are overwritten (with the remote value). -/
theorem garmin_merge_preserves_manual_fields {α : Type}
    (localRow remoteRow : HealthMetricRow α) (f : MetricField) :
    (remoteRow f = none → mergeGarminSync localRow remoteRow f = localRow f) ∧
    (∀ v, remoteRow f = some v → mergeGarminSync localRow remoteRow f = some v) := by
  constructor
  · intro h
    simp [mergeGarminSync, h]
  · intro v h
    simp [mergeGarminSync, h]

/-- Closed witness for the C3 theorem: a manual steps value survives a remote
record without steps, while a remotely provided calories value wins. -/
theorem garmin_merge_preserves_manual_fields_witness :
    mergeGarminSync manualRowSample remoteRowSample .steps
        = manualRowSample .steps ∧
    mergeGarminSync manualRowSample remoteRowSample .calories = some 500 :=
  ⟨(garmin_merge_preserves_manual_fields manualRowSample remoteRowSample .steps).1
      rfl,
   (garmin_merge_preserves_manual_fields manualRowSample remoteRowSample
      .calories).2 500 rfl⟩

/-- C5 counterexample: the deployed response types do not carry the field
set {success, items_synced, items_created, items_updated, errors,
last_sync_at} claimed for every sync call — Garmin renames the counts and
the Strava response has no created-count at all (5 fields). -/
theorem sync_response_fields_diverge_from_contract :
    specSyncContractFields ≠ garminSyncResponseFields ∧
    specSyncContractFields ≠ stravaSyncResponseFields ∧
    "items_created" ∈ specSyncContractFields ∧
    "items_created" ∉ garminSyncResponseFields ∧
    "items_created" ∉ stravaSyncResponseFields ∧
    stravaSyncResponseFields.length = 5 := by
  decide

/-- C5 amended: each provider's sync response carries success, errors and
last_sync_at, but the count fields are provider-specific — Garmin returns
days_synced, metrics_created and metrics_updated (6 fields), Strava returns
activities_synced and metrics_updated (5 fields) and no created-count field
of any name. -/
theorem sync_response_shape_per_provider :
    "success" ∈ garminSyncResponseFields ∧
    "errors" ∈ garminSyncResponseFields ∧
    "last_sync_at" ∈ garminSyncResponseFields ∧
    "days_synced" ∈ garminSyncResponseFields ∧
    "metrics_created" ∈ garminSyncResponseFields ∧
    "metrics_updated" ∈ garminSyncResponseFields ∧
    garminSyncResponseFields.length = 6 ∧
    "success" ∈ stravaSyncResponseFields ∧
    "errors" ∈ stravaSyncResponseFields ∧
    "last_sync_at" ∈ stravaSyncResponseFields ∧
    "activities_synced" ∈ stravaSyncResponseFields ∧
    "metrics_updated" ∈ stravaSyncResponseFields ∧
    stravaSyncResponseFields.length = 5 ∧
    (∀ f ∈ stravaSyncResponseFields, strContains f "created" = false) := by
  decide

/-- C8: an authorization code is exchanged at most once — a fresh code is
accepted and recorded, exchanging the same code again fails cleanly with
the ReplayedAuthorizationCode outcome without mutating the state (no retry)
— and the client removes a processed code from the callback URL, so
re-running the callback effect on the resulting URL exchanges nothing. -/
theorem strava_code_exchanged_at_most_once
    (used : List String) (code : String) (h : code ∉ used) :
    (exchangeStravaCode used code).1 = .accepted ∧
    (exchangeStravaCode (exchangeStravaCode used code).2 code).1
        = .replayedAuthorizationCode ∧
    (exchangeStravaCode (exchangeStravaCode used code).2 code).2
        = (exchangeStravaCode used code).2 ∧
    (∀ c, (processStravaCallbackUrl (some c)).2 = some c →
      (processStravaCallbackUrl (processStravaCallbackUrl (some c)).1).2
        = none) := by
  refine ⟨by simp [exchangeStravaCode, h], by simp [exchangeStravaCode, h],
    by simp [exchangeStravaCode, h], ?_⟩
  intro c hc
  by_cases h0 : c = ""
  · simp [processStravaCallbackUrl, h0] at hc
  · simp [processStravaCallbackUrl, h0]

/-- Closed witness for the C8 theorem at a concrete fresh code. -/
theorem strava_code_exchanged_at_most_once_witness :
    (exchangeStravaCode [] "authcode123").1 = .accepted ∧
    (exchangeStravaCode (exchangeStravaCode [] "authcode123").2
        "authcode123").1 = .replayedAuthorizationCode ∧
    (processStravaCallbackUrl
        (processStravaCallbackUrl (some "authcode123")).1).2 = none := by
  obtain ⟨h1, h2, h3, h4⟩ :=
    strava_code_exchanged_at_most_once [] "authcode123" (by decide)
  exact ⟨h1, h2, h4 "authcode123" (by decide)⟩

/-- Replacing key `k` in a table that does not contain it is the identity. -/
theorem map_replace_id {α : Type} (rows : List (ActivityKey × α))
    (k : ActivityKey) (c : α) :
    k ∉ rows.map Prod.fst →
    rows.map (fun p => if p.1 = k then (k, c) else p) = rows := by
  induction rows with
  | nil => intro _; rfl
  | cons p t ih =>
    intro h
    have h1 : ¬ p.1 = k := by
      intro e
      exact h (by simp [e])
    have h2 : k ∉ t.map Prod.fst := by
      intro m
      exact h (by simp [m])
    simp [h1, ih h2]

/-- Replacing key `k` by the very row the table already holds (keys unique)
is the identity. -/
theorem map_replace_self {α : Type} (rows : List (ActivityKey × α))
    (k : ActivityKey) (c : α) :
    (k, c) ∈ rows → (rows.map Prod.fst).Nodup →
    rows.map (fun p => if p.1 = k then (k, c) else p) = rows := by
  induction rows with
  | nil => intro hmem _; cases hmem
  | cons p t ih =>
    intro hmem hnd
    simp only [List.map_cons, List.nodup_cons] at hnd
    rcases List.mem_cons.mp hmem with he | ht
    · rw [← he]
      rw [← he] at hnd
      simp only [List.map_cons]
      rw [map_replace_id t k c hnd.1]
      simp
    · have hkt : k ∈ t.map Prod.fst := List.mem_map.mpr ⟨(k, c), ht, rfl⟩
      have hp : ¬ p.1 = k := by
        intro e
        exact hnd.1 (e ▸ hkt)
      simp only [List.map_cons, if_neg hp]
      rw [ih ht hnd.2]

/-- Upserting a row the table already holds (keys unique) is the identity. -/
theorem upsertRow_self {α : Type} (rows : List (ActivityKey × α))
    (k : ActivityKey) (c : α) :
    (k, c) ∈ rows → (rows.map Prod.fst).Nodup → upsertRow rows k c = rows := by
  intro hmem hnd
  have hk : k ∈ rows.map Prod.fst := List.mem_map.mpr ⟨(k, c), hmem, rfl⟩
  rw [upsertRow, if_pos hk]
  exact map_replace_self rows k c hmem hnd

/-- After an upsert the upserted row is in the table. -/
theorem mem_upsertRow_self {α : Type} (rows : List (ActivityKey × α))
    (k : ActivityKey) (c : α) : (k, c) ∈ upsertRow rows k c := by
  by_cases h : k ∈ rows.map Prod.fst
  · rw [upsertRow, if_pos h]
    obtain ⟨p, hp, he⟩ := List.mem_map.mp h
    exact List.mem_map.mpr ⟨p, hp, by simp [he]⟩
  · rw [upsertRow, if_neg h]
    simp

/-- Upserting key `k` leaves rows with other keys in place. -/
theorem mem_upsertRow_of_ne {α : Type} (rows : List (ActivityKey × α))
    (k : ActivityKey) (c : α) (p : ActivityKey × α) :
    p ∈ rows → p.1 ≠ k → p ∈ upsertRow rows k c := by
  intro hm hne
  by_cases h : k ∈ rows.map Prod.fst
  · rw [upsertRow, if_pos h]
    exact List.mem_map.mpr ⟨p, hm, by simp [hne]⟩
  · rw [upsertRow, if_neg h]
    exact List.mem_append_left _ hm

/-- The upserted key is among the table's keys afterwards. -/
theorem mem_keys_upsertRow_self {α : Type} (rows : List (ActivityKey × α))
    (k : ActivityKey) (c : α) : k ∈ (upsertRow rows k c).map Prod.fst :=
  List.mem_map.mpr ⟨(k, c), mem_upsertRow_self rows k c, rfl⟩

/-- Upserting never removes a key from the table. -/
theorem mem_keys_upsertRow_mono {α : Type} (rows : List (ActivityKey × α))
    (k : ActivityKey) (c : α) (q : ActivityKey) :
    q ∈ rows.map Prod.fst → q ∈ (upsertRow rows k c).map Prod.fst := by
  intro h
  by_cases hq : q = k
  · subst hq
    exact mem_keys_upsertRow_self rows q c
  · obtain ⟨p, hp, he⟩ := List.mem_map.mp h
    have : p ∈ upsertRow rows k c :=
      mem_upsertRow_of_ne rows k c p hp (by rw [he]; exact hq)
    exact List.mem_map.mpr ⟨p, this, he⟩

/-- Upserting preserves key uniqueness of the table. -/
theorem nodup_keys_upsertRow {α : Type} (rows : List (ActivityKey × α))
    (k : ActivityKey) (c : α) :
    (rows.map Prod.fst).Nodup → ((upsertRow rows k c).map Prod.fst).Nodup := by
  intro h
  by_cases hk : k ∈ rows.map Prod.fst
  · rw [upsertRow, if_pos hk]
    have he : (rows.map (fun p => if p.1 = k then (k, c) else p)).map Prod.fst
        = rows.map Prod.fst := by
      rw [List.map_map]
      apply List.map_congr_left
      intro p _
      by_cases hpk : p.1 = k
      · simp [hpk]
      · simp [hpk]
    rw [he]
    exact h
  · rw [upsertRow, if_neg hk]
    simp [List.nodup_append, h, hk]

/-- The final table of a sync pass over a nonempty window steps through the
head upsert. -/
theorem syncRun_fst_cons {α : Type} (rows rest : List (ActivityKey × α))
    (k : ActivityKey) (c : α) :
    (syncRun rows ((k, c) :: rest)).1 = (syncRun (upsertRow rows k c) rest).1 := by
  by_cases h : k ∈ rows.map Prod.fst <;> simp [syncRun, h]

/-- A sync pass never removes a key from the table. -/
theorem mem_keys_syncRun_mono {α : Type} :
    ∀ (rs rows : List (ActivityKey × α)) (q : ActivityKey),
    q ∈ rows.map Prod.fst → q ∈ (syncRun rows rs).1.map Prod.fst := by
  intro rs
  induction rs with
  | nil => intro rows q h; simpa [syncRun] using h
  | cons p t ih =>
    intro rows q h
    obtain ⟨k, c⟩ := p
    rw [syncRun_fst_cons]
    exact ih _ _ (mem_keys_upsertRow_mono rows k c q h)

/-- Every key of the synced window is in the table after the pass. -/
theorem mem_keys_syncRun_of_mem {α : Type} :
    ∀ (rs rows : List (ActivityKey × α)) (q : ActivityKey),
    q ∈ rs.map Prod.fst → q ∈ (syncRun rows rs).1.map Prod.fst := by
  intro rs
  induction rs with
  | nil => intro rows q h; simp at h
  | cons p t ih =>
    intro rows q h
    obtain ⟨k, c⟩ := p
    rw [syncRun_fst_cons]
    simp only [List.map_cons, List.mem_cons] at h
    rcases h with he | ht
    · subst he
      exact mem_keys_syncRun_mono t _ _ (mem_keys_upsertRow_self rows q c)
    · exact ih _ _ ht

/-- A sync pass preserves key uniqueness of the table. -/
theorem nodup_keys_syncRun {α : Type} :
    ∀ (rs rows : List (ActivityKey × α)),
    (rows.map Prod.fst).Nodup → ((syncRun rows rs).1.map Prod.fst).Nodup := by
  intro rs
  induction rs with
  | nil => intro rows h; simpa [syncRun] using h
  | cons p t ih =>
    intro rows h
    obtain ⟨k, c⟩ := p
    rw [syncRun_fst_cons]
    exact ih _ (nodup_keys_upsertRow rows k c h)

/-- A sync pass over a window that never mentions a row's key leaves that
row in the table. -/
theorem mem_syncRun_untouched {α : Type} :
    ∀ (rs rows : List (ActivityKey × α)) (p : ActivityKey × α),
    p ∈ rows → p.1 ∉ rs.map Prod.fst → p ∈ (syncRun rows rs).1 := by
  intro rs
  induction rs with
  | nil => intro rows p h _; simpa [syncRun] using h
  | cons q t ih =>
    intro rows p h hk
    obtain ⟨k, c⟩ := q
    rw [syncRun_fst_cons]
    have h1 : p.1 ≠ k := by
      intro e
      exact hk (by simp [e])
    have h2 : p.1 ∉ t.map Prod.fst := by
      intro m
      exact hk (by simp [m])
    exact ih _ _ (mem_upsertRow_of_ne rows k c p h h1) h2

/-- A sync pass whose window keys are all already in the table creates
nothing. -/
theorem syncRun_created_zero {α : Type} :
    ∀ (rs rows : List (ActivityKey × α)),
    (∀ q ∈ rs.map Prod.fst, q ∈ rows.map Prod.fst) → (syncRun rows rs).2.1 = 0 := by
  intro rs
  induction rs with
  | nil => intro rows _; rfl
  | cons p t ih =>
    intro rows h
    obtain ⟨k, c⟩ := p
    have hk : k ∈ rows.map Prod.fst := h k (by simp)
    have ht : ∀ q ∈ t.map Prod.fst, q ∈ (upsertRow rows k c).map Prod.fst := by
      intro q hq
      exact mem_keys_upsertRow_mono rows k c q (h q (by simp [hq]))
    simp only [syncRun, if_pos hk]
    exact ih _ ht

/-- Re-running a sync pass over the same window (unique keys) on its own
output is the identity on the table. -/
theorem syncRun_idem {α : Type} :
    ∀ (rs rows : List (ActivityKey × α)),
    (rows.map Prod.fst).Nodup → (rs.map Prod.fst).Nodup →
    (syncRun (syncRun rows rs).1 rs).1 = (syncRun rows rs).1 := by
  intro rs
  induction rs with
  | nil => intro rows _ _; rfl
  | cons q t ih =>
    intro rows hrows hrs
    obtain ⟨k, c⟩ := q
    simp only [List.map_cons, List.nodup_cons] at hrs
    rw [syncRun_fst_cons, syncRun_fst_cons]
    have hmem : (k, c) ∈ (syncRun (upsertRow rows k c) t).1 :=
      mem_syncRun_untouched t _ (k, c) (mem_upsertRow_self rows k c) hrs.1
    have hnd1 : ((syncRun (upsertRow rows k c) t).1.map Prod.fst).Nodup :=
      nodup_keys_syncRun t _ (nodup_keys_upsertRow rows k c hrows)
    rw [upsertRow_self _ k c hmem hnd1]
    exact ih _ (nodup_keys_upsertRow rows k c hrows) hrs.2

/-- C4: the Strava sync reconciliation is idempotent — starting from a table
with unique (user_id, provider_activity_id) keys, running the same window
(unique remote ids, no remote changes) twice yields the identical end table
(so identical updated record content and no duplicate rows) with
items_created equal to 0 on the second pass. -/
theorem strava_sync_reconciliation_idempotent {α : Type}
    (rows rs : List (ActivityKey × α))
    (hrows : (rows.map Prod.fst).Nodup) (hrs : (rs.map Prod.fst).Nodup) :
    (syncRun (syncRun rows rs).1 rs).1 = (syncRun rows rs).1 ∧
    (syncRun (syncRun rows rs).1 rs).2.1 = 0 ∧
    ((syncRun rows rs).1.map Prod.fst).Nodup := by
  refine ⟨syncRun_idem rs rows hrows hrs, ?_, nodup_keys_syncRun rs rows hrows⟩
  apply syncRun_created_zero
  intro q hq
  exact mem_keys_syncRun_of_mem rs rows q hq

/-- Closed witness for the C4 theorem: one existing activity row, a window
refreshing it and adding one new activity. -/
theorem strava_sync_reconciliation_idempotent_witness :
    (syncRun (syncRun [((1, 100), 5)] [((1, 100), 7), ((1, 101), 3)]).1
        [((1, 100), 7), ((1, 101), 3)]).1
      = (syncRun [((1, 100), 5)] [((1, 100), 7), ((1, 101), 3)]).1 ∧
    (syncRun (syncRun [((1, 100), 5)] [((1, 100), 7), ((1, 101), 3)]).1
        [((1, 100), 7), ((1, 101), 3)]).2.1 = 0 ∧
    ((syncRun [((1, 100), 5)] [((1, 100), 7), ((1, 101), 3)]).1.map
        Prod.fst).Nodup :=
  strava_sync_reconciliation_idempotent [((1, 100), 5)]
    [((1, 100), 7), ((1, 101), 3)] (by decide) (by decide)

end FamilyLifeHub
